import Mathlib

/-!
Shallow embedding of `google-cloud-sdk/lib/surface/sql/instances/delete.py`
(the `Delete.Run` command of `gcloud sql instances delete`).

The command is a thin orchestration layer over external collaborators
(the generated SQL API client, the resource parser, the console prompt,
the operation waiter, the logger).  We embed the command's own control
flow faithfully and model every external call by an oracle (`World`)
that supplies its outcome.  `Run` returns both the command's result
(`Except PyError (Option OperationStatus)`, where `Except.error`
models a Python exception propagating out of `Run` and `Except.ok none`
models Python's `return None`) and the ordered trace of observable
events (network calls, the confirmation prompt, log emissions), so that
temporal claims ("X happens only after Y", "no network call is issued")
can be stated about the trace.
-/

namespace SqlInstancesDelete

/-- A Python exception, classified the way `Delete.Run` classifies it:
`httpError` models `apitools.base.py.exceptions.HttpError` (the only
class the two `except` clauses in `Run` catch); `invalidArgument`
models the user-facing invalid-argument error raised by
`validate.ValidateInstanceName`; `otherError` models every other
exception an external call may raise. -/
inductive PyError where
  | httpError (msg : String)
  | invalidArgument (msg : String)
  | otherError (msg : String)
deriving DecidableEq, Repr

/-- Whether the exception is an `apitools` `HttpError`, i.e. whether the
`except exceptions.HttpError` clauses in `Run` catch it. -/
def PyError.isHttp : PyError → Bool
  | .httpError _ => true
  | _ => false

/-- The resolved instance reference produced by
`client.resource_parser.Parse(args.instance, params={'project': ...},
collection='sql.instances')`. -/
structure InstanceRef where
  project : String
  instance_ : String
deriving DecidableEq, Repr

/-- The operation reference produced by
`client.resource_parser.Create('sql.operations', operation=result.name,
project=instance_ref.project)`. -/
structure OperationRef where
  project : String
  operation : String
deriving DecidableEq, Repr

/-- The `settings` sub-message of the fetched instance resource.  The
generated proto message leaves an unset boolean field as `None`, so the
field is an `Option Bool`; `Run` tests it by Python truthiness. -/
structure Settings where
  retainBackupsOnDelete : Option Bool
deriving DecidableEq, Repr

/-- The instance resource returned by `sql_client.instances.Get`; `Run`
reads only `settings.retainBackupsOnDelete` from it. -/
structure InstanceResource where
  settings : Settings
deriving DecidableEq, Repr

/-- Python truthiness of an optional boolean proto field: `None` and
`False` are falsy, `True` is truthy. -/
def pyTruthy : Option Bool → Bool
  | some b => b
  | none => false

/-- The operation message returned by `sql_client.instances.Delete`;
`Run` reads only its `name`. -/
structure Operation where
  name : String
deriving DecidableEq, Repr

/-- The operation status snapshot returned by
`sql_client.operations.Get` (returned verbatim in async mode). -/
structure OperationStatus where
  payload : String
deriving DecidableEq, Repr

/-- A datetime value as parsed by the `--final-backup-expiry-time` flag
(a Python `datetime`, fields within `datetime`'s documented ranges:
`1 <= year <= 9999`, `1 <= month <= 12`, `1 <= day <= 31`,
`0 <= hour <= 23`, `0 <= minute <= 59`, `0 <= second <= 59`,
`0 <= microsecond <= 999999`). -/
structure Datetime where
  year : Nat
  month : Nat
  day : Nat
  hour : Nat
  minute : Nat
  second : Nat
  microsecond : Nat
deriving DecidableEq, Repr

/-- The parsed command-line arguments (`args` in `Delete.Run`):
positional `instance`, `--enable-final-backup`,
`--final-backup-description`, `--final-backup-expiry-time`,
`--final-backup-retention-days` (the last two mutually exclusive at
parse time), and `--async`. -/
structure Args where
  instance_ : String
  enable_final_backup : Bool
  final_backup_description : Option String
  final_backup_expiry_time : Option Datetime
  final_backup_retention_days : Option Int
  async_ : Bool
deriving DecidableEq, Repr

/-- The message `sql_messages.SqlInstancesDeleteRequest(...)` built in
`Run` (fields as set at the construction site, lines 133-141). -/
structure SqlInstancesDeleteRequest where
  instance_ : String
  project : String
  enableFinalBackup : Bool
  finalBackupTtlDays : Option Int
  finalBackupDescription : Option String
  finalBackupExpiryTime : Option String
deriving DecidableEq, Repr

/-- One observable event of a run: a call to an external collaborator or
a log emission, in the order `Run` performs them. -/
inductive Event where
  | validateCall (name : String)
  | getInstanceCall (project : String) (instance_ : String)
  | logDebugGetError (error : PyError)
  | promptShown (text : String)
  | deleteCall (req : SqlInstancesDeleteRequest)
  | getOperationCall (project : String) (operation : String)
  | waitForOperationCall (progressMessage : String)
  | logDebugOperationRef (ref : Option OperationRef)
  | logDeletedResource (ref : InstanceRef)
deriving DecidableEq, Repr

/-- The oracle for every external call `Run` makes: each field is the
outcome the corresponding collaborator would produce if called.
`validName` abstracts the naming rule enforced by
`validate.ValidateInstanceName` (that module is outside the provided
source slice). -/
structure World where
  validName : String → Bool
  parseResult : Except PyError InstanceRef
  getInstanceResult : Except PyError InstanceResource
  promptAnswer : Bool
  deleteResult : Except PyError Operation
  getOperationResult : Except PyError OperationStatus
  waitResult : Except PyError Unit

/-- Modelled from the spec: `validate.ValidateInstanceName` (module
`googlecloudsdk.api_lib.sql.validate`, not in the provided source slice)
"validates `instance` against naming rules; fails with a user-facing
`InvalidArgument` error if malformed".  The naming rule itself is
abstracted as the predicate `validName`. -/
def ValidateInstanceName (validName : String → Bool) (name : String) : Option PyError :=
  if validName name then none else some (.invalidArgument name)

/-- The decimal digit character for `n % 10`. -/
def digitChar (n : Nat) : Char :=
  match n % 10 with
  | 0 => '0' | 1 => '1' | 2 => '2' | 3 => '3' | 4 => '4'
  | 5 => '5' | 6 => '6' | 7 => '7' | 8 => '8' | _ => '9'

/-- Two-digit zero-padded decimal, as `strftime`'s `%m`, `%d`, `%H`,
`%M`, `%S` render a field that `datetime` guarantees is below 100
(taking each digit modulo 10 is the identity on such values). -/
def pad2 (n : Nat) : String :=
  ⟨[digitChar (n / 10), digitChar n]⟩

/-- Four-digit zero-padded decimal, as `strftime`'s `%Y` renders a year
that `datetime` guarantees is between 1 and 9999. -/
def pad4 (n : Nat) : String :=
  ⟨[digitChar (n / 1000), digitChar (n / 100), digitChar (n / 10), digitChar n]⟩

/-- Six-digit zero-padded decimal, as `strftime`'s `%f` renders a
microsecond field that `datetime` guarantees is below 1000000. -/
def pad6 (n : Nat) : String :=
  ⟨[digitChar (n / 100000), digitChar (n / 10000), digitChar (n / 1000),
    digitChar (n / 100), digitChar (n / 10), digitChar n]⟩

/-- Line 128-130 of `delete.py`:
`args.final_backup_expiry_time.strftime('%Y-%m-%dT%H:%M:%S.%fZ')`. -/
def strftimeFinalBackupExpiry (t : Datetime) : String :=
  pad4 t.year ++ "-" ++ pad2 t.month ++ "-" ++ pad2 t.day ++ "T" ++
    pad2 t.hour ++ ":" ++ pad2 t.minute ++ ":" ++ pad2 t.second ++ "." ++
    pad6 t.microsecond ++ "Z"

/-- The result type of `Run`: an exception propagating out
(`Except.error`), or a normal return (`Except.ok`), whose value is
`none` for Python's `return None` / implicit fall-off return and
`some st` for the async-mode operation snapshot. -/
abbrev RunOutcome := Except PyError (Option OperationStatus)

/-- Lines 118-130 of `delete.py`: normalization of
`args.final_backup_retention_days` (only positive values are kept:
`if args.final_backup_retention_days is not None and
args.final_backup_retention_days > 0`) and formatting of
`args.final_backup_expiry_time` via
`strftime('%Y-%m-%dT%H:%M:%S.%fZ')`, followed by construction of the
`SqlInstancesDeleteRequest` message (lines 133-141). -/
def buildDeleteRequest (args : Args) (instance_ref : InstanceRef) : SqlInstancesDeleteRequest :=
  let retention_days : Option Int :=
    match args.final_backup_retention_days with
    | some d => if d > 0 then some d else none
    | none => none
  let expiry_time : Option String :=
    Option.map strftimeFinalBackupExpiry args.final_backup_expiry_time
  { instance_ := instance_ref.instance_
    project := instance_ref.project
    enableFinalBackup := args.enable_final_backup
    finalBackupTtlDays := retention_days
    finalBackupDescription := args.final_backup_description
    finalBackupExpiryTime := expiry_time }

/-- Lines 132-160 of `delete.py`: the `try` block.  `Delete` is called;
on success an operation reference is created and either (async) a
single `operations.Get` snapshot is returned, or (sync)
`WaitForOperation` blocks with the `'Deleting Cloud SQL instance'`
progress message and `log.DeletedResource(instance_ref)` is emitted.
An `HttpError` raised anywhere in the block is logged at debug level
with the current (possibly still-`None`) operation reference and
re-raised; any other exception propagates without the debug log. -/
def deletePhase (args : Args) (w : World) (instance_ref : InstanceRef) :
    RunOutcome × List Event :=
  let req := buildDeleteRequest args instance_ref
  match w.deleteResult with
  | .error e =>
      if e.isHttp then
        (.error e, [.deleteCall req, .logDebugOperationRef none])
      else
        (.error e, [.deleteCall req])
  | .ok result =>
      let operation_ref : OperationRef :=
        { project := instance_ref.project, operation := result.name }
      if args.async_ then
        match w.getOperationResult with
        | .ok st =>
            (.ok (some st),
             [.deleteCall req,
              .getOperationCall operation_ref.project operation_ref.operation])
        | .error e =>
            if e.isHttp then
              (.error e,
               [.deleteCall req,
                .getOperationCall operation_ref.project operation_ref.operation,
                .logDebugOperationRef (some operation_ref)])
            else
              (.error e,
               [.deleteCall req,
                .getOperationCall operation_ref.project operation_ref.operation])
      else
        match w.waitResult with
        | .ok _ =>
            (.ok none,
             [.deleteCall req,
              .waitForOperationCall "Deleting Cloud SQL instance",
              .logDeletedResource instance_ref])
        | .error e =>
            if e.isHttp then
              (.error e,
               [.deleteCall req,
                .waitForOperationCall "Deleting Cloud SQL instance",
                .logDebugOperationRef (some operation_ref)])
            else
              (.error e,
               [.deleteCall req,
                .waitForOperationCall "Deleting Cloud SQL instance"])

/-- The default confirmation prompt (lines 111-113 of `delete.py`). -/
def promptAllDataLost : String :=
  "All of the instance data will be lost when the instance is deleted."

/-- The prompt used when the fetched instance retains backups on delete
(lines 103-106 of `delete.py`, the two adjacent string literals
concatenated). -/
def promptRetainBackups : String :=
  "All of the instance data will be lost except the existing backups when the instance is deleted."

/-- Lines 99-116 of `delete.py`: prompt wording selection
(`instance_resource is not None and
instance_resource.settings.retainBackupsOnDelete`), the
`console_io.PromptContinue(prompt)` call (declining returns `None`),
then the `try` block (`deletePhase`). -/
def promptAndDelete (args : Args) (w : World) (instance_ref : InstanceRef)
    (instance_resource : Option InstanceResource) (t : List Event) :
    RunOutcome × List Event :=
  let prompt :=
    match instance_resource with
    | some r =>
        if pyTruthy r.settings.retainBackupsOnDelete then promptRetainBackups
        else promptAllDataLost
    | none => promptAllDataLost
  let t := t ++ [.promptShown prompt]
  if w.promptAnswer then
    let r := deletePhase args w instance_ref
    (r.1, t ++ r.2)
  else
    (.ok none, t)

/-- `Delete.Run` (lines 60-160 of `delete.py`): validate the instance
name, resolve the instance reference, best-effort fetch of the instance
resource (an `HttpError` is swallowed and logged at debug level, the
resource treated as absent; any other exception propagates), then
prompt and delete. -/
def Run (args : Args) (w : World) : RunOutcome × List Event :=
  match ValidateInstanceName w.validName args.instance_ with
  | some e => (.error e, [.validateCall args.instance_])
  | none =>
      match w.parseResult with
      | .error e => (.error e, [.validateCall args.instance_])
      | .ok instance_ref =>
          let t0 : List Event :=
            [.validateCall args.instance_,
             .getInstanceCall instance_ref.project instance_ref.instance_]
          match w.getInstanceResult with
          | .ok r => promptAndDelete args w instance_ref (some r) t0
          | .error e =>
              if e.isHttp then
                promptAndDelete args w instance_ref none
                  (t0 ++ [.logDebugGetError e])
              else
                (.error e, t0)

/-- Observation: is the event the `instances.Delete` network call? -/
def Event.isDeleteCall : Event → Bool
  | .deleteCall _ => true
  | _ => false

/-- Observation: is the event a remote network call (`instances.Get`,
`instances.Delete`, `operations.Get`, or the operation waiter's
polling)? -/
def Event.isNetworkCall : Event → Bool
  | .getInstanceCall _ _ => true
  | .deleteCall _ => true
  | .getOperationCall _ _ => true
  | .waitForOperationCall _ => true
  | _ => false

/-- Observation: is the event the confirmation prompt being shown? -/
def Event.isPromptShown : Event → Bool
  | .promptShown _ => true
  | _ => false

/-- Observation: is the event an `operations.Get` call? -/
def Event.isGetOperationCall : Event → Bool
  | .getOperationCall _ _ => true
  | _ => false

/-- Observation: is the event the operation waiter being invoked? -/
def Event.isWaitCall : Event → Bool
  | .waitForOperationCall _ => true
  | _ => false

/-- `promptBeforeDelete t seen` is `true` iff every `deleteCall` event
in `t` is preceded (in `t`, or by `seen` for an earlier prefix) by some
`promptShown` event. -/
def promptBeforeDelete : List Event → Bool → Bool
  | [], _ => true
  | e :: rest, seen =>
      match e with
      | .promptShown _ => promptBeforeDelete rest true
      | .deleteCall _ => seen && promptBeforeDelete rest seen
      | _ => promptBeforeDelete rest seen

/-- Whether the outcome of the `instances.Get` fetch is one the command
survives: a success, or an `HttpError` (which the first `except` clause
swallows). -/
def getSwallowed : Except PyError InstanceResource → Bool
  | .ok _ => true
  | .error e => e.isHttp

/-- Concrete sample arguments used by the witnesses. -/
def argsEx : Args :=
  { instance_ := "db1"
    enable_final_backup := false
    final_backup_description := none
    final_backup_expiry_time := none
    final_backup_retention_days := none
    async_ := false }

/-- Concrete sample world used by the witnesses: every external call
succeeds and the user confirms the prompt. -/
def worldEx : World :=
  { validName := fun _ => true
    parseResult := .ok { project := "p", instance_ := "db1" }
    getInstanceResult := .ok { settings := { retainBackupsOnDelete := some true } }
    promptAnswer := true
    deleteResult := .ok { name := "op1" }
    getOperationResult := .ok { payload := "RUNNING" }
    waitResult := .ok () }

/-- Pattern check, transcribed from the spec: a 27-character string
`YYYY-MM-DDTHH:MM:SS.ffffff` with a literal trailing `Z`, every
placeholder position a decimal digit and the separators literal. -/
def matchesExpiryPattern (s : String) : Bool :=
  match s.data with
  | [y1, y2, y3, y4, d1, mo1, mo2, d2, da1, da2, tSep, h1, h2, c1, mi1, mi2,
     c2, se1, se2, dot, f1, f2, f3, f4, f5, f6, z] =>
      y1.isDigit && y2.isDigit && y3.isDigit && y4.isDigit && d1 == '-' &&
      mo1.isDigit && mo2.isDigit && d2 == '-' && da1.isDigit && da2.isDigit &&
      tSep == 'T' && h1.isDigit && h2.isDigit && c1 == ':' && mi1.isDigit &&
      mi2.isDigit && c2 == ':' && se1.isDigit && se2.isDigit && dot == '.' &&
      f1.isDigit && f2.isDigit && f3.isDigit && f4.isDigit && f5.isDigit &&
      f6.isDigit && z == 'Z'
  | _ => false

/-- The instance reference that `worldEx.parseResult` resolves to. -/
def irefEx : InstanceRef :=
  { project := "p", instance_ := "db1" }

/-- A sample datetime for the `--final-backup-expiry-time` flag. -/
def dtEx : Datetime :=
  { year := 2024, month := 3, day := 7, hour := 1, minute := 2, second := 3,
    microsecond := 45 }

/-- `argsEx` with `--final-backup-retention-days 5`. -/
def argsRet : Args :=
  { argsEx with final_backup_retention_days := some 5 }

/-- `argsEx` with `--final-backup-expiry-time` set to `dtEx`. -/
def argsExp : Args :=
  { argsEx with final_backup_expiry_time := some dtEx }

/-- `argsEx` with the `--async` flag set. -/
def argsAsync : Args :=
  { argsEx with async_ := true }

/-- `worldEx`, but the user declines the confirmation prompt. -/
def worldDecline : World :=
  { worldEx with promptAnswer := false }

/-- `worldEx`, but the instance name fails validation. -/
def worldBadName : World :=
  { worldEx with validName := fun _ => false }

/-- `worldEx`, but the `instances.Get` fetch raises an `HttpError`. -/
def worldGetHttp : World :=
  { worldEx with getInstanceResult := .error (.httpError "forbidden") }

/-- `worldEx`, but the `instances.Get` fetch raises a non-HTTP
exception. -/
def worldGetOther : World :=
  { worldEx with getInstanceResult := .error (.otherError "ValueError") }

/-- `worldEx`, but the `instances.Delete` call raises an `HttpError`. -/
def worldDelHttp : World :=
  { worldEx with deleteResult := .error (.httpError "boom") }

end SqlInstancesDelete

namespace SqlInstancesDelete

theorem digitChar_isDigit (n : Nat) : (digitChar n).isDigit = true := by
  unfold digitChar
  generalize n % 10 = m
  rcases m with _|_|_|_|_|_|_|_|_|m <;> rfl

theorem matchesExpiryPattern_strftime (t : Datetime) :
    matchesExpiryPattern (strftimeFinalBackupExpiry t) = true := by
  unfold strftimeFinalBackupExpiry matchesExpiryPattern pad4 pad2 pad6
  simp [String.data_append, digitChar_isDigit]

theorem countP_eq_zero_of_any_false (p : Event → Bool) (l : List Event)
    (h : l.any p = false) : l.countP p = 0 := by
  rw [List.countP_eq_zero]
  intro a ha
  rw [List.any_eq_false] at h
  exact h a ha

theorem deletePhase_pbd (args : Args) (w : World) (iref : InstanceRef) :
    promptBeforeDelete (deletePhase args w iref).2 true = true := by
  unfold deletePhase
  cases w.deleteResult with
  | error e => cases e <;> simp [promptBeforeDelete, PyError.isHttp]
  | ok op =>
      cases h : args.async_ <;> simp
      · cases w.waitResult with
        | ok u => simp [promptBeforeDelete]
        | error e => cases e <;> simp [promptBeforeDelete, PyError.isHttp]
      · cases w.getOperationResult with
        | ok st => simp [promptBeforeDelete]
        | error e => cases e <;> simp [promptBeforeDelete, PyError.isHttp]

theorem deletePhase_no_prompt (args : Args) (w : World) (iref : InstanceRef) (p : String) :
    Event.promptShown p ∉ (deletePhase args w iref).2 := by
  unfold deletePhase
  cases w.deleteResult with
  | error e => cases e <;> simp [PyError.isHttp]
  | ok op =>
      cases h : args.async_ <;> simp
      · cases w.waitResult with
        | ok u => simp
        | error e => cases e <;> simp [PyError.isHttp]
      · cases w.getOperationResult with
        | ok st => simp
        | error e => cases e <;> simp [PyError.isHttp]

theorem deletePhase_any_delete (args : Args) (w : World) (iref : InstanceRef) :
    (deletePhase args w iref).2.any Event.isDeleteCall = true := by
  unfold deletePhase
  cases w.deleteResult with
  | error e => cases e <;> simp [PyError.isHttp, Event.isDeleteCall]
  | ok op =>
      cases h : args.async_ <;> simp
      · cases w.waitResult with
        | ok u => simp [Event.isDeleteCall]
        | error e => cases e <;> simp [PyError.isHttp, Event.isDeleteCall]
      · cases w.getOperationResult with
        | ok st => simp [Event.isDeleteCall]
        | error e => cases e <;> simp [PyError.isHttp, Event.isDeleteCall]

theorem deletePhase_deleteCall_inv (args : Args) (w : World) (iref : InstanceRef)
    (req : SqlInstancesDeleteRequest) :
    Event.deleteCall req ∈ (deletePhase args w iref).2 →
      req = buildDeleteRequest args iref := by
  unfold deletePhase
  cases w.deleteResult with
  | error e => cases e <;> simp [PyError.isHttp]
  | ok op =>
      cases h : args.async_ <;> simp
      · cases w.waitResult with
        | ok u => simp
        | error e => cases e <;> simp [PyError.isHttp]
      · cases w.getOperationResult with
        | ok st => simp
        | error e => cases e <;> simp [PyError.isHttp]

theorem run_deleteCall_inv (args : Args) (w : World) (req : SqlInstancesDeleteRequest)
    (h : Event.deleteCall req ∈ (Run args w).2) :
    ∃ iref, w.parseResult = Except.ok iref ∧ req = buildDeleteRequest args iref := by
  revert h
  unfold Run ValidateInstanceName
  cases hv : w.validName args.instance_
  · simp
  · simp only [if_true]
    cases hp : w.parseResult with
    | error e => simp
    | ok iref =>
        cases hg : w.getInstanceResult with
        | ok r =>
            unfold promptAndDelete
            cases ha : w.promptAnswer <;> simp [ha]
            intro h
            exact deletePhase_deleteCall_inv args w iref req h
        | error e =>
            cases he : e.isHttp <;> simp [he]
            unfold promptAndDelete
            cases ha : w.promptAnswer <;> simp [ha]
            intro h
            exact deletePhase_deleteCall_inv args w iref req h

theorem run_reaches_delete (args : Args) (w : World) (iref : InstanceRef)
    (h1 : w.validName args.instance_ = true)
    (h2 : w.parseResult = Except.ok iref)
    (h3 : getSwallowed w.getInstanceResult = true)
    (h4 : w.promptAnswer = true) :
    (Run args w).1 = (deletePhase args w iref).1
    ∧ ∃ pre, (Run args w).2 = pre ++ (deletePhase args w iref).2
        ∧ pre.any Event.isGetOperationCall = false
        ∧ pre.any Event.isWaitCall = false
        ∧ pre.any Event.isDeleteCall = false
        ∧ (∀ r, Event.logDebugOperationRef r ∉ pre)
        ∧ (∀ r, Event.logDeletedResource r ∉ pre) := by
  unfold Run ValidateInstanceName
  simp only [h1, if_true, h2]
  cases hg : w.getInstanceResult with
  | ok r =>
      unfold promptAndDelete
      simp only [h4, if_true]
      constructor
      · trivial
      · refine ⟨_, rfl, ?_, ?_, ?_, ?_, ?_⟩ <;>
          simp [Event.isGetOperationCall, Event.isWaitCall, Event.isDeleteCall]
  | error e =>
      rw [hg] at h3
      simp only [getSwallowed] at h3
      simp only [h3, if_true]
      unfold promptAndDelete
      simp only [h4, if_true]
      constructor
      · trivial
      · refine ⟨_, rfl, ?_, ?_, ?_, ?_, ?_⟩ <;>
          simp [Event.isGetOperationCall, Event.isWaitCall, Event.isDeleteCall]

theorem deletePhase_async_ok (args : Args) (w : World) (iref : InstanceRef)
    (op : Operation) (st : OperationStatus)
    (h5 : args.async_ = true) (h6 : w.deleteResult = Except.ok op)
    (h7 : w.getOperationResult = Except.ok st) :
    deletePhase args w iref =
      (Except.ok (some st),
       [Event.deleteCall (buildDeleteRequest args iref),
        Event.getOperationCall iref.project op.name]) := by
  unfold deletePhase
  simp [h5, h6, h7]

theorem deletePhase_countP_delete (args : Args) (w : World) (iref : InstanceRef) :
    (deletePhase args w iref).2.countP Event.isDeleteCall = 1 := by
  unfold deletePhase
  cases w.deleteResult with
  | error e => cases e <;> simp [PyError.isHttp, List.countP_cons, Event.isDeleteCall]
  | ok op =>
      cases h : args.async_ <;> simp
      · cases w.waitResult with
        | ok u => simp [List.countP_cons, Event.isDeleteCall]
        | error e => cases e <;> simp [PyError.isHttp, List.countP_cons, Event.isDeleteCall]
      · cases w.getOperationResult with
        | ok st => simp [List.countP_cons, Event.isDeleteCall]
        | error e => cases e <;> simp [PyError.isHttp, List.countP_cons, Event.isDeleteCall]

theorem deletePhase_sync_wait (args : Args) (w : World) (iref : InstanceRef)
    (op : Operation)
    (h5 : args.async_ = false) (h6 : w.deleteResult = Except.ok op) :
    Event.waitForOperationCall "Deleting Cloud SQL instance" ∈ (deletePhase args w iref).2
    ∧ (w.waitResult = Except.ok () →
        (deletePhase args w iref).1 = Except.ok none
        ∧ Event.logDeletedResource iref ∈ (deletePhase args w iref).2) := by
  unfold deletePhase
  cases hw : w.waitResult with
  | ok u => simp [h5, h6]
  | error e => cases e <;> simp [h5, h6, PyError.isHttp]

theorem deletePhase_delete_http (args : Args) (w : World) (iref : InstanceRef) (m : String)
    (h6 : w.deleteResult = Except.error (PyError.httpError m)) :
    (deletePhase args w iref).1 = Except.error (PyError.httpError m)
    ∧ Event.logDebugOperationRef none ∈ (deletePhase args w iref).2 := by
  unfold deletePhase
  simp [h6, PyError.isHttp]

theorem deletePhase_async_http (args : Args) (w : World) (iref : InstanceRef)
    (op : Operation) (m : String)
    (h5 : args.async_ = true) (h6 : w.deleteResult = Except.ok op)
    (h7 : w.getOperationResult = Except.error (PyError.httpError m)) :
    (deletePhase args w iref).1 = Except.error (PyError.httpError m)
    ∧ Event.logDebugOperationRef (some { project := iref.project, operation := op.name })
        ∈ (deletePhase args w iref).2 := by
  unfold deletePhase
  simp [h5, h6, h7, PyError.isHttp]

theorem deletePhase_sync_http (args : Args) (w : World) (iref : InstanceRef)
    (op : Operation) (m : String)
    (h5 : args.async_ = false) (h6 : w.deleteResult = Except.ok op)
    (h7 : w.waitResult = Except.error (PyError.httpError m)) :
    (deletePhase args w iref).1 = Except.error (PyError.httpError m)
    ∧ Event.logDebugOperationRef (some { project := iref.project, operation := op.name })
        ∈ (deletePhase args w iref).2 := by
  unfold deletePhase
  simp [h5, h6, h7, PyError.isHttp]

end SqlInstancesDelete

namespace SqlInstancesDelete

/-- Claim C1: for every execution of the command, the `DeleteInstance`
request is issued only after the confirmation prompt has been accepted
(a shown prompt precedes every delete call in the trace, and a delete
call implies the prompt was answered affirmatively); if the user
declines the prompt, no delete call is issued and `Run` returns a
null/empty result (`Except.ok none`) with no error. -/
theorem confirmation_gates_delete (args : Args) (w : World) :
    promptBeforeDelete (Run args w).2 false = true
    ∧ ((Run args w).2.any Event.isDeleteCall = true → w.promptAnswer = true)
    ∧ (w.promptAnswer = false →
        (Run args w).2.any Event.isDeleteCall = false
        ∧ ((Run args w).2.any Event.isPromptShown = true →
            (Run args w).1 = Except.ok none)) := by
  unfold Run ValidateInstanceName
  cases hv : w.validName args.instance_
  · simp [promptBeforeDelete, Event.isDeleteCall, Event.isPromptShown]
  · simp only [if_true]
    cases hp : w.parseResult with
    | error e => simp [promptBeforeDelete, Event.isDeleteCall, Event.isPromptShown]
    | ok iref =>
        cases hg : w.getInstanceResult with
        | ok r =>
            unfold promptAndDelete
            cases ha : w.promptAnswer <;>
              simp [promptBeforeDelete, Event.isDeleteCall, Event.isPromptShown,
                    deletePhase_pbd, deletePhase_any_delete]
        | error e =>
            cases he : e.isHttp <;> simp [he]
            · simp [promptBeforeDelete, Event.isDeleteCall, Event.isPromptShown]
            · unfold promptAndDelete
              cases ha : w.promptAnswer <;>
                simp [promptBeforeDelete, Event.isDeleteCall, Event.isPromptShown,
                      deletePhase_pbd, deletePhase_any_delete]

/-- Witness for C1 at concrete input: the user declines, so no delete
call appears in the trace and the command returns `Except.ok none`. -/
theorem confirmation_gates_delete_witness :
    (Run argsEx worldDecline).2.any Event.isDeleteCall = false
    ∧ (Run argsEx worldDecline).1 = Except.ok none :=
  ⟨((confirmation_gates_delete argsEx worldDecline).2.2 rfl).1,
   ((confirmation_gates_delete argsEx worldDecline).2.2 rfl).2 rfl⟩

/-- Claim C2: for every malformed instance identifier (one the naming
rule rejects), the command fails with a user-facing invalid-argument
error and the trace contains no network call: validation runs strictly
before the first remote request. -/
theorem invalid_name_fails_before_network (args : Args) (w : World)
    (h : w.validName args.instance_ = false) :
    (Run args w).1 = Except.error (PyError.invalidArgument args.instance_)
    ∧ (Run args w).2.any Event.isNetworkCall = false := by
  unfold Run ValidateInstanceName
  simp [h, Event.isNetworkCall]

/-- Witness for C2 at concrete input: a rejected name fails before any
network call. -/
theorem invalid_name_fails_before_network_witness :
    (Run argsEx worldBadName).1 = Except.error (PyError.invalidArgument "db1")
    ∧ (Run argsEx worldBadName).2.any Event.isNetworkCall = false :=
  invalid_name_fails_before_network argsEx worldBadName rfl

/-- Claim C3: if the pre-delete `instances.Get` fetch fails with an
`HttpError`, the command swallows the error, logs it at debug level,
treats the resource as absent, and still proceeds to the
prompt-and-delete flow using the "all data lost" prompt wording. -/
theorem get_failure_swallowed (args : Args) (w : World) (iref : InstanceRef) (m : String)
    (h1 : w.validName args.instance_ = true)
    (h2 : w.parseResult = Except.ok iref)
    (h3 : w.getInstanceResult = Except.error (PyError.httpError m)) :
    Event.logDebugGetError (PyError.httpError m) ∈ (Run args w).2
    ∧ Event.promptShown promptAllDataLost ∈ (Run args w).2
    ∧ (w.promptAnswer = true → (Run args w).2.any Event.isDeleteCall = true) := by
  unfold Run ValidateInstanceName
  simp only [h1, if_true, h2, h3, PyError.isHttp]
  unfold promptAndDelete
  cases ha : w.promptAnswer <;> simp [deletePhase_any_delete, Event.isDeleteCall]

/-- Witness for C3 at concrete input: a failed fetch is debug-logged,
the default prompt is shown, and the confirmed run still deletes. -/
theorem get_failure_swallowed_witness :
    Event.logDebugGetError (PyError.httpError "forbidden") ∈ (Run argsEx worldGetHttp).2
    ∧ Event.promptShown promptAllDataLost ∈ (Run argsEx worldGetHttp).2
    ∧ (Run argsEx worldGetHttp).2.any Event.isDeleteCall = true :=
  ⟨(get_failure_swallowed argsEx worldGetHttp irefEx "forbidden" rfl rfl rfl).1,
   (get_failure_swallowed argsEx worldGetHttp irefEx "forbidden" rfl rfl rfl).2.1,
   (get_failure_swallowed argsEx worldGetHttp irefEx "forbidden" rfl rfl rfl).2.2 rfl⟩

/-- Claim C4: whenever the run reaches the prompt, the "data lost except
the existing backups" wording is shown exactly when the fetched
resource is present with `settings.retainBackupsOnDelete` true, and the
default "all data lost" wording is shown in every other case. -/
theorem prompt_wording (args : Args) (w : World) (iref : InstanceRef)
    (h1 : w.validName args.instance_ = true)
    (h2 : w.parseResult = Except.ok iref)
    (h3 : getSwallowed w.getInstanceResult = true) :
    (Event.promptShown promptRetainBackups ∈ (Run args w).2 ↔
      (∃ r, w.getInstanceResult = Except.ok r
        ∧ r.settings.retainBackupsOnDelete = some true))
    ∧ (Event.promptShown promptAllDataLost ∈ (Run args w).2 ↔
      ¬ (∃ r, w.getInstanceResult = Except.ok r
        ∧ r.settings.retainBackupsOnDelete = some true)) := by
  unfold Run ValidateInstanceName
  simp only [h1, if_true, h2]
  cases hg : w.getInstanceResult with
  | ok r =>
      unfold promptAndDelete
      rcases ho : r.settings.retainBackupsOnDelete with _ | b
      · cases ha : w.promptAnswer <;>
          simp [pyTruthy, ho, ha, hg, deletePhase_no_prompt, promptRetainBackups,
                promptAllDataLost]
      · cases b <;> cases ha : w.promptAnswer <;>
          simp [pyTruthy, ho, ha, hg, deletePhase_no_prompt, promptRetainBackups,
                promptAllDataLost]
  | error e =>
      rw [hg] at h3
      simp only [getSwallowed] at h3
      simp only [h3, if_true]
      unfold promptAndDelete
      cases ha : w.promptAnswer <;>
        simp [ha, hg, deletePhase_no_prompt, promptRetainBackups, promptAllDataLost]

/-- Witness for C4 at concrete input: with a fetched resource whose
`retainBackupsOnDelete` is true, the backup-retaining wording is
shown. -/
theorem prompt_wording_witness :
    Event.promptShown promptRetainBackups ∈ (Run argsEx worldEx).2 :=
  (prompt_wording argsEx worldEx irefEx rfl rfl rfl).1.mpr ⟨_, rfl, rfl⟩

/-- Claim C5: for every value of `--final-backup-retention-days`, the
delete request's `finalBackupTtlDays` field is absent when the flag is
absent or its value is at most 0, and equals the flag value unchanged
when the value is positive. -/
theorem retention_days_normalized (args : Args) (w : World) (req : SqlInstancesDeleteRequest)
    (h : Event.deleteCall req ∈ (Run args w).2) :
    ((args.final_backup_retention_days = none
        ∨ ∃ d, d ≤ 0 ∧ args.final_backup_retention_days = some d) →
      req.finalBackupTtlDays = none)
    ∧ (∀ d : Int, 0 < d → args.final_backup_retention_days = some d →
        req.finalBackupTtlDays = some d) := by
  obtain ⟨iref, -, rfl⟩ := run_deleteCall_inv args w req h
  constructor
  · rintro (hn | ⟨d, hd, hn⟩)
    · simp [buildDeleteRequest, hn]
    · simp only [buildDeleteRequest, hn]
      rw [if_neg (by omega)]
  · intro d hd hn
    simp [buildDeleteRequest, hn, hd]

/-- Witness for C5 at concrete input: `--final-backup-retention-days 5`
passes through to the request unchanged. -/
theorem retention_days_normalized_witness :
    (buildDeleteRequest argsRet irefEx).finalBackupTtlDays = some 5 :=
  (retention_days_normalized argsRet worldEx (buildDeleteRequest argsRet irefEx)
      (by decide)).2 5 (by decide) rfl

/-- Claim C6: whenever `--final-backup-expiry-time` is supplied, the
delete request's `finalBackupExpiryTime` field is the flag's datetime
formatted as `YYYY-MM-DDTHH:MM:SS.ffffff` with a literal trailing `Z`
at microsecond precision; when the flag is absent the field is
absent. -/
theorem expiry_time_formatted (args : Args) (w : World) (req : SqlInstancesDeleteRequest)
    (h : Event.deleteCall req ∈ (Run args w).2) :
    (args.final_backup_expiry_time = none → req.finalBackupExpiryTime = none)
    ∧ (∀ ts, args.final_backup_expiry_time = some ts →
        req.finalBackupExpiryTime = some (strftimeFinalBackupExpiry ts)
        ∧ matchesExpiryPattern (strftimeFinalBackupExpiry ts) = true) := by
  obtain ⟨iref, -, rfl⟩ := run_deleteCall_inv args w req h
  refine ⟨fun hn => by simp [buildDeleteRequest, hn], fun ts hs => ?_⟩
  exact ⟨by simp [buildDeleteRequest, hs], matchesExpiryPattern_strftime ts⟩

/-- Witness for C6 at concrete input: a supplied expiry datetime is
formatted into the request and matches the documented pattern. -/
theorem expiry_time_formatted_witness :
    (buildDeleteRequest argsExp irefEx).finalBackupExpiryTime
        = some (strftimeFinalBackupExpiry dtEx)
    ∧ matchesExpiryPattern (strftimeFinalBackupExpiry dtEx) = true :=
  (expiry_time_formatted argsExp worldEx (buildDeleteRequest argsExp irefEx)
      (by decide)).2 dtEx rfl

/-- Claim C7: when the `--async` flag is set and the delete call
succeeds, the command returns the result of a single `operations.Get`
call on the newly built operation reference as its successful result,
and never invokes the polling/wait path. -/
theorem async_returns_get_operation (args : Args) (w : World) (iref : InstanceRef)
    (op : Operation) (st : OperationStatus)
    (h1 : w.validName args.instance_ = true)
    (h2 : w.parseResult = Except.ok iref)
    (h3 : getSwallowed w.getInstanceResult = true)
    (h4 : w.promptAnswer = true)
    (h5 : args.async_ = true)
    (h6 : w.deleteResult = Except.ok op)
    (h7 : w.getOperationResult = Except.ok st) :
    (Run args w).1 = Except.ok (some st)
    ∧ Event.getOperationCall iref.project op.name ∈ (Run args w).2
    ∧ (Run args w).2.countP Event.isGetOperationCall = 1
    ∧ (Run args w).2.any Event.isWaitCall = false := by
  obtain ⟨hres, pre, htr, hgo, hwait, -, -, -⟩ := run_reaches_delete args w iref h1 h2 h3 h4
  rw [deletePhase_async_ok args w iref op st h5 h6 h7] at hres htr
  refine ⟨by simpa using hres, ?_, ?_, ?_⟩
  · rw [htr]; simp
  · rw [htr, List.countP_append, countP_eq_zero_of_any_false _ _ hgo]
    simp [List.countP_cons, Event.isGetOperationCall]
  · rw [htr, List.any_append, hwait]
    simp [Event.isWaitCall]

/-- Witness for C7 at concrete input: with `--async`, the run returns
the `operations.Get` snapshot, issues exactly one `operations.Get`
call, and never invokes the waiter. -/
theorem async_returns_get_operation_witness :
    (Run argsAsync worldEx).1 = Except.ok (some { payload := "RUNNING" })
    ∧ (Run argsAsync worldEx).2.countP Event.isGetOperationCall = 1
    ∧ (Run argsAsync worldEx).2.any Event.isWaitCall = false := by
  have h := async_returns_get_operation argsAsync worldEx irefEx { name := "op1" }
    { payload := "RUNNING" } rfl rfl rfl rfl rfl rfl rfl
  exact ⟨h.1, h.2.2.1, h.2.2.2⟩

/-- Claim C8: when the `--async` flag is not set and the delete call
succeeds, the command blocks on the operation waiter with the "Deleting
Cloud SQL instance" progress message, and on terminal success logs a
deletion-confirmed message keyed by the resolved instance reference
(and returns `None`). -/
theorem sync_waits_and_logs_deletion (args : Args) (w : World) (iref : InstanceRef)
    (op : Operation)
    (h1 : w.validName args.instance_ = true)
    (h2 : w.parseResult = Except.ok iref)
    (h3 : getSwallowed w.getInstanceResult = true)
    (h4 : w.promptAnswer = true)
    (h5 : args.async_ = false)
    (h6 : w.deleteResult = Except.ok op) :
    Event.waitForOperationCall "Deleting Cloud SQL instance" ∈ (Run args w).2
    ∧ (w.waitResult = Except.ok () →
        (Run args w).1 = Except.ok none
        ∧ Event.logDeletedResource iref ∈ (Run args w).2) := by
  obtain ⟨hres, pre, htr, -, -, -, -, -⟩ := run_reaches_delete args w iref h1 h2 h3 h4
  obtain ⟨hwmem, hwok⟩ := deletePhase_sync_wait args w iref op h5 h6
  refine ⟨by rw [htr]; exact List.mem_append_right pre hwmem, fun hw => ?_⟩
  obtain ⟨hr1, hr2⟩ := hwok hw
  exact ⟨by rw [hres, hr1], by rw [htr]; exact List.mem_append_right pre hr2⟩

/-- Witness for C8 at concrete input: the sync run invokes the waiter
with the progress message, returns `None` and logs the deleted
resource. -/
theorem sync_waits_and_logs_deletion_witness :
    Event.waitForOperationCall "Deleting Cloud SQL instance" ∈ (Run argsEx worldEx).2
    ∧ (Run argsEx worldEx).1 = Except.ok none
    ∧ Event.logDeletedResource irefEx ∈ (Run argsEx worldEx).2 := by
  have h := sync_waits_and_logs_deletion argsEx worldEx irefEx { name := "op1" }
    rfl rfl rfl rfl rfl rfl
  exact ⟨h.1, (h.2 rfl).1, (h.2 rfl).2⟩

/-- Claim C9: if the delete request (or any call after it inside the
`try` block) fails with an HTTP error, the command logs the
possibly-null operation reference at debug level and re-raises the
original error to the caller unchanged; exactly one delete request is
issued (no retry). -/
theorem http_error_logged_and_reraised (args : Args) (w : World) (iref : InstanceRef)
    (m : String)
    (h1 : w.validName args.instance_ = true)
    (h2 : w.parseResult = Except.ok iref)
    (h3 : getSwallowed w.getInstanceResult = true)
    (h4 : w.promptAnswer = true) :
    (w.deleteResult = Except.error (PyError.httpError m) →
        (Run args w).1 = Except.error (PyError.httpError m)
        ∧ Event.logDebugOperationRef none ∈ (Run args w).2)
    ∧ (∀ op, w.deleteResult = Except.ok op → args.async_ = true →
        w.getOperationResult = Except.error (PyError.httpError m) →
        (Run args w).1 = Except.error (PyError.httpError m)
        ∧ Event.logDebugOperationRef (some { project := iref.project, operation := op.name })
            ∈ (Run args w).2)
    ∧ (∀ op, w.deleteResult = Except.ok op → args.async_ = false →
        w.waitResult = Except.error (PyError.httpError m) →
        (Run args w).1 = Except.error (PyError.httpError m)
        ∧ Event.logDebugOperationRef (some { project := iref.project, operation := op.name })
            ∈ (Run args w).2)
    ∧ (Run args w).2.countP Event.isDeleteCall = 1 := by
  obtain ⟨hres, pre, htr, -, -, hdel, -, -⟩ := run_reaches_delete args w iref h1 h2 h3 h4
  refine ⟨fun h6 => ?_, fun op h6 h5 h7 => ?_, fun op h6 h5 h7 => ?_, ?_⟩
  · obtain ⟨ha, hb⟩ := deletePhase_delete_http args w iref m h6
    exact ⟨by rw [hres, ha], by rw [htr]; exact List.mem_append_right pre hb⟩
  · obtain ⟨ha, hb⟩ := deletePhase_async_http args w iref op m h5 h6 h7
    exact ⟨by rw [hres, ha], by rw [htr]; exact List.mem_append_right pre hb⟩
  · obtain ⟨ha, hb⟩ := deletePhase_sync_http args w iref op m h5 h6 h7
    exact ⟨by rw [hres, ha], by rw [htr]; exact List.mem_append_right pre hb⟩
  · rw [htr, List.countP_append, countP_eq_zero_of_any_false _ _ hdel,
        deletePhase_countP_delete]

/-- Witness for C9 at concrete input: a failing delete call re-raises
the same HTTP error, debug-logs a null operation reference, and only
one delete request was issued. -/
theorem http_error_logged_and_reraised_witness :
    (Run argsEx worldDelHttp).1 = Except.error (PyError.httpError "boom")
    ∧ Event.logDebugOperationRef none ∈ (Run argsEx worldDelHttp).2
    ∧ (Run argsEx worldDelHttp).2.countP Event.isDeleteCall = 1 := by
  have h := http_error_logged_and_reraised argsEx worldDelHttp irefEx "boom"
    rfl rfl rfl rfl
  exact ⟨(h.1 rfl).1, (h.1 rfl).2, h.2.2.2⟩

/-- Claim C10: only `HttpError` exceptions raised by the pre-delete
`instances.Get` fetch are suppressed; any other exception raised during
that fetch propagates out of `Run` before the confirmation prompt is
ever shown and before any delete call is issued. -/
theorem only_http_get_error_swallowed (args : Args) (w : World) (iref : InstanceRef)
    (e : PyError)
    (h1 : w.validName args.instance_ = true)
    (h2 : w.parseResult = Except.ok iref)
    (h3 : w.getInstanceResult = Except.error e) :
    (e.isHttp = false →
        (Run args w).1 = Except.error e
        ∧ (Run args w).2.any Event.isPromptShown = false
        ∧ (Run args w).2.any Event.isDeleteCall = false)
    ∧ (e.isHttp = true → (Run args w).2.any Event.isPromptShown = true) := by
  unfold Run ValidateInstanceName
  simp only [h1, if_true, h2, h3]
  constructor
  · intro he
    simp [he, Event.isPromptShown, Event.isDeleteCall]
  · intro he
    simp only [he, if_true]
    unfold promptAndDelete
    cases ha : w.promptAnswer <;> simp [ha, Event.isPromptShown]

/-- Witness for C10 at concrete input: a non-HTTP exception from the
fetch propagates unchanged, with no prompt and no delete call. -/
theorem only_http_get_error_swallowed_witness :
    (Run argsEx worldGetOther).1 = Except.error (PyError.otherError "ValueError")
    ∧ (Run argsEx worldGetOther).2.any Event.isPromptShown = false
    ∧ (Run argsEx worldGetOther).2.any Event.isDeleteCall = false := by
  have h := only_http_get_error_swallowed argsEx worldGetOther irefEx
    (PyError.otherError "ValueError") rfl rfl rfl
  exact h.1 rfl

end SqlInstancesDelete
